import Mathlib

/-!
Shallow embedding of the transcription service in `src/app.py` of
jbousquie/flask_whisper_api, together with the startup model loading,
the health endpoints and the (library-side) word/speaker fusion step.

External collaborators (the whisperx engines, werkzeug file saving,
the audio loader) are modelled as parameters of a `World` record: each
fallible call is an `Except String` value or function supplied by the
world, matching the Python calls that may raise.  Side effects that the
claims talk about (temporary-file creation and deletion, the GPU memory
reclaim step, which stages were invoked) are recorded in an explicit
`Trace` value returned next to the HTTP response.
-/

namespace App

/- Handles for the heavyweight model objects are abstract tokens. -/
abbrev WhisperHandle := Nat
abbrev AlignHandle := Nat
abbrev AlignMeta := Nat
abbrev DiarizeHandle := Nat
abbrev Audio := Nat

/-- A word with timestamps and an optional speaker label (spec section 3). -/
structure Word where
  text : String
  start_time : ℚ
  end_time : ℚ
  speaker : Option String
deriving DecidableEq

/-- A speaker-labelled time interval produced by diarization (spec section 3). -/
structure DiarizationInterval where
  start_time : ℚ
  end_time : ℚ
  speaker_label : String
deriving DecidableEq

/-- A transcript segment (spec section 3). -/
structure Segment where
  start_time : ℚ
  end_time : ℚ
  text : String
  words : List Word
  speaker : Option String
deriving DecidableEq

/-- The whisperx result dictionary, reduced to the parts the handler touches:
`result["segments"]` (app.py line 118). -/
structure WResult where
  segments : List Segment
deriving DecidableEq

abbrev DiarizeSegments := List DiarizationInterval

/-- The four module-level model globals of app.py lines 22-25. -/
structure Models where
  whisperx_model : Option WhisperHandle
  align_model : Option AlignHandle
  align_metadata : Option AlignMeta
  diarize_pipeline : Option DiarizeHandle
deriving DecidableEq

/-- The two environment variables read by `load_models` (app.py line 53). -/
structure Env where
  HF_TOKEN : Option String
  HUGGINGFACE_TOKEN : Option String
deriving DecidableEq

/-- Python `a or b` for `os.getenv` results: the left value is kept when it is
truthy (a non-empty string), otherwise the right value is returned. -/
def pyOr (a b : Option String) : Option String :=
  match a with
  | some s => if s = "" then b else some s
  | none => b

/-- Python truthiness of an optional string: `None` and `""` are falsy. -/
def truthyStr : Option String → Bool
  | some s => !(s == "")
  | none => false

/-- External calls made during startup loading: `whisperx.load_model`,
`whisperx.load_align_model` and `Pipeline.from_pretrained`, each of which may
raise (modelled as `Except`). -/
structure LoadWorld where
  load_model : Except String WhisperHandle
  load_align_model : Except String (AlignHandle × AlignMeta)
  from_pretrained : String → Except String DiarizeHandle

/-- Embedding of `load_models` (app.py lines 33-67).  The whole body is one
`try` block whose handler re-raises, so any failure of any load call
propagates out of the function; the diarization model is loaded only when a
truthy token is found in the environment. -/
def load_models (env : Env) (w : LoadWorld) : Except String Models := do
  let wm ← w.load_model
  let am_md ← w.load_align_model
  let hf_token := pyOr env.HF_TOKEN env.HUGGINGFACE_TOKEN
  if truthyStr hf_token then do
    let dp ← w.from_pretrained (hf_token.getD "")
    pure ⟨some wm, some am_md.1, some am_md.2, some dp⟩
  else
    pure ⟨some wm, some am_md.1, some am_md.2, none⟩

/-- The JSON body of the `/health` endpoint (app.py lines 69-79), without the
gpu-memory figure. -/
structure HealthReport where
  status : String
  whisperx_loaded : Bool
  align_loaded : Bool
  diarize_loaded : Bool
  device : String
deriving DecidableEq

/-- Embedding of `health_check` (app.py lines 69-79). -/
def health_check (m : Models) (cuda_available : Bool) : HealthReport :=
  { status := "healthy"
    whisperx_loaded := m.whisperx_model.isSome
    align_loaded := m.align_model.isSome
    diarize_loaded := m.diarize_pipeline.isSome
    device := if cuda_available then "cuda" else "cpu" }

/-- The allowed upload extensions (app.py line 28). -/
def ALLOWED_EXTENSIONS : List String :=
  ["wav", "mp3", "mp4", "avi", "mov", "mkv", "flac", "m4a", "ogg"]

/-- The JSON body of the `/models/info` endpoint (app.py lines 146-155),
without the max-file-size figure. -/
structure ModelsInfoReport where
  whisperx_model : Option String
  align_model_loaded : Bool
  diarization_available : Bool
  supported_formats : List String
deriving DecidableEq

/-- Embedding of `models_info` (app.py lines 146-155). -/
def models_info (m : Models) : ModelsInfoReport :=
  { whisperx_model := if m.whisperx_model.isSome then some "large-v2" else none
    align_model_loaded := m.align_model.isSome
    diarization_available := m.diarize_pipeline.isSome
    supported_formats := ALLOWED_EXTENSIONS }

/-- The dot character. -/
def dotChar : Char := Char.ofNat 46

/-- Python `str.lower()` for the ASCII strings handled here, character by
character. -/
def strToLower (s : String) : String := String.mk (s.toList.map Char.toLower)

/-- Python `'.' in filename`. -/
def hasDot (filename : String) : Bool := filename.toList.contains dotChar

/-- Python `filename.rsplit('.', 1)[1].lower()`: the part after the last dot,
lowercased — computed as the longest dot-free suffix of the character list. -/
def ext_lower (filename : String) : String :=
  String.mk
    ((((filename.toList.reverse).takeWhile (fun c => !(c == dotChar))).reverse).map
      Char.toLower)

/-- Embedding of `allowed_file` (app.py lines 30-31): the filename contains a
dot and the lowercased part after the last dot is an allowed extension. -/
def allowed_file (filename : String) : Bool :=
  hasDot filename && ALLOWED_EXTENSIONS.contains (ext_lower filename)

/-- The parts of the Flask request that `transcribe_audio` reads: presence of
the `audio` file field, its filename, and the four form fields
(app.py lines 86-100). -/
structure Request where
  has_audio : Bool
  filename : String
  form_diarization : Option String
  form_language : Option String
  form_min_speakers : Option String
  form_max_speakers : Option String
deriving DecidableEq

/-- The parsed option bundle of app.py lines 97-100. -/
structure Params where
  enable_diarization : Bool
  language : String
  min_speakers : Int
  max_speakers : Int
deriving DecidableEq

/-- Python `int(request.form.get(key, dflt))`: a missing field yields the
default, a present field is parsed and a non-integer raises `ValueError`
(modelled as `Except.error`), which app.py line 142 turns into a 500. -/
def parse_int_form (v : Option String) (dflt : Int) : Except String Int :=
  match v with
  | none => Except.ok dflt
  | some s =>
    match s.toInt? with
    | some n => Except.ok n
    | none => Except.error ("invalid literal for int() with base 10: " ++ s)

/-- Parameter extraction of app.py lines 96-100, run before the temporary
file is created. -/
def get_params (req : Request) : Except String Params :=
  match parse_int_form req.form_min_speakers 1 with
  | Except.error e => Except.error e
  | Except.ok mn =>
    match parse_int_form req.form_max_speakers 10 with
    | Except.error e => Except.error e
    | Except.ok mx =>
      Except.ok ⟨strToLower (req.form_diarization.getD "false") == "true",
                 req.form_language.getD "en", mn, mx⟩

/-- The per-request external calls of app.py lines 104-124: `file.save`,
`whisperx.load_audio`, `model.transcribe`, `whisperx.align`,
`whisperx.diarize` and `whisperx.assign_word_speakers`.  Each call that can
raise is an `Except`; `assign_word_speakers` is a pure library function. -/
structure World where
  save_ok : Bool
  save_err : String
  load_audio : Except String Audio
  transcribe : WhisperHandle → Audio → String → Except String WResult
  align : AlignHandle → Option AlignMeta → List Segment → Audio → Except String WResult
  diarize : DiarizeHandle → Audio → Int → Int → Except String DiarizeSegments
  assign_word_speakers : DiarizeSegments → WResult → WResult

/-- Observable side effects of one `transcribe_audio` call: whether the
temporary upload file was created and deleted, which pipeline stages were
invoked, and whether the GPU-memory reclaim step
(`gc.collect()` + `torch.cuda.empty_cache()`, app.py lines 126-128) ran. -/
structure Trace where
  temp_created : Bool
  temp_deleted : Bool
  transcribe_called : Bool
  align_called : Bool
  diarize_called : Bool
  fusion_called : Bool
  reclaim_called : Bool
deriving DecidableEq

/-- The trace of a request that performed no side effect yet. -/
def emptyTrace : Trace := ⟨false, false, false, false, false, false, false⟩

/-- The diarization step of app.py lines 120-128: diarize and fuse only when
diarization was requested and the pipeline global is loaded, then run the
GPU-memory reclaim step.  `aligned` records whether the alignment stage was
invoked earlier, for the returned trace. -/
def diarize_step (m : Models) (w : World) (p : Params) (audio : Audio)
    (result : WResult) (aligned : Bool) : Except String WResult × Trace :=
  match (if p.enable_diarization then m.diarize_pipeline else none) with
  | some dp =>
    match w.diarize dp audio p.min_speakers p.max_speakers with
    | Except.error e =>
      (Except.error e, ⟨false, false, true, aligned, true, false, false⟩)
    | Except.ok ds =>
      (Except.ok (w.assign_word_speakers ds result),
       ⟨false, false, true, aligned, true, true, true⟩)
  | none => (Except.ok result, ⟨false, false, true, aligned, false, false, true⟩)

/-- The inner `try` body of app.py lines 108-128: load the audio, transcribe,
align when the alignment model global is non-null, then `diarize_step`.  No
stage is wrapped in its own handler, so the first failure aborts the rest of
the body and propagates (to the `finally` and then the outer `except`).
`whisperx_model` is used without a null check (line 114); a null handle
raises an `AttributeError`. -/
def run_pipeline (m : Models) (w : World) (p : Params) :
    Except String WResult × Trace :=
  match w.load_audio with
  | Except.error e => (Except.error e, emptyTrace)
  | Except.ok audio =>
    match m.whisperx_model with
    | none =>
      (Except.error "AttributeError: NoneType object has no attribute transcribe",
       emptyTrace)
    | some wm =>
      match w.transcribe wm audio p.language with
      | Except.error e =>
        (Except.error e, ⟨false, false, true, false, false, false, false⟩)
      | Except.ok result0 =>
        match m.align_model with
        | some am =>
          match w.align am m.align_metadata result0.segments audio with
          | Except.error e =>
            (Except.error e, ⟨false, false, true, true, false, false, false⟩)
          | Except.ok result1 => diarize_step m w p audio result1 true
        | none => diarize_step m w p audio result0 false

/-- The HTTP response of `transcribe_audio`: either the success JSON of
app.py lines 130-135 or an error JSON with its status code. -/
inductive Response where
  | success (transcription : WResult) (filename : String) (diarization_enabled : Bool)
  | failure (error : String) (status : Nat)
deriving DecidableEq

/-- Whether a response is the success JSON. -/
def Response.isSuccess : Response → Bool
  | Response.success _ _ _ => true
  | Response.failure _ _ => false

/-- Embedding of the `/transcribe` handler `transcribe_audio`
(app.py lines 81-144).  Validation errors return 400 before any side effect;
then the temporary file is created (`tempfile.NamedTemporaryFile` with
`delete=False`, line 104) and the upload is saved into it — a failing
`file.save` propagates to the outer `except` before the inner
`try`/`finally` is entered, so the file is not deleted on that path.  Once
the inner `try` is entered, its `finally` (lines 137-140) deletes the file
on success and on every raise, and the outer `except` (lines 142-144) turns
any raise into a 500 response.  The `secure_filename` sanitization of the
echoed filename (line 103) is treated as the identity; no claim depends on
it. -/
def transcribe_audio (m : Models) (w : World) (req : Request) :
    Response × Trace :=
  if !req.has_audio then
    (Response.failure "No audio file provided" 400, emptyTrace)
  else if req.filename == "" then
    (Response.failure "No file selected" 400, emptyTrace)
  else if !allowed_file req.filename then
    (Response.failure "File type not supported" 400, emptyTrace)
  else
    match get_params req with
    | Except.error e => (Response.failure e 500, emptyTrace)
    | Except.ok p =>
      if !w.save_ok then
        (Response.failure w.save_err 500, { emptyTrace with temp_created := true })
      else
        match run_pipeline m w p with
        | (Except.ok result, tr) =>
          (Response.success result req.filename
             (p.enable_diarization && m.diarize_pipeline.isSome),
           { tr with temp_created := true, temp_deleted := true })
        | (Except.error e, tr) =>
          (Response.failure e 500, { tr with temp_created := true, temp_deleted := true })

/-- Modelled from the spec: the temporal overlap of a word with a
diarization interval used by the word-to-speaker fusion of
`whisperx.assign_word_speakers` (called at app.py line 124 but implemented in
the external whisperx library, not in this repository):
`overlap(word, interval) = max(0, min(word.end, interval.end) − max(word.start, interval.start))`
(spec section 4.4). -/
def interval_overlap (w : Word) (iv : DiarizationInterval) : ℚ :=
  max 0 (min w.end_time iv.end_time - max w.start_time iv.start_time)

/-- Modelled from the spec: fold step choosing the best interval for a word.
An interval with no positive overlap is never a candidate; a candidate
replaces the current best when its overlap is strictly greater, or equal with
an earlier start time (tie-break of spec section 4.4). -/
def pick (w : Word) (cur : Option DiarizationInterval) (iv : DiarizationInterval) :
    Option DiarizationInterval :=
  if interval_overlap w iv ≤ 0 then cur
  else
    match cur with
    | none => some iv
    | some c =>
      if interval_overlap w c < interval_overlap w iv then some iv
      else if interval_overlap w iv = interval_overlap w c ∧ iv.start_time < c.start_time then
        some iv
      else cur

/-- Modelled from the spec: the interval with the greatest overlap with a
word, `none` when no interval overlaps at all (spec section 4.4). -/
def best_interval (w : Word) (ivs : List DiarizationInterval) :
    Option DiarizationInterval :=
  ivs.foldl (pick w) none

/-- Modelled from the spec: speaker assignment for one word — the label of
the best-overlapping interval, or the speaker left as it was (unset) when no
interval overlaps (spec section 4.4). -/
def assign_word (ivs : List DiarizationInterval) (w : Word) : Word :=
  match best_interval w ivs with
  | some iv => { w with speaker := some iv.speaker_label }
  | none => w

/-- Modelled from the spec: `assign_speakers` of the Interval Fusion Engine,
mapping the per-word assignment over the word sequence (spec section 4.4). -/
def assign_speakers (ws : List Word) (ivs : List DiarizationInterval) : List Word :=
  ws.map (assign_word ivs)

/-! Concrete sample inputs used by the witness and counterexample theorems. -/

/-- A world in which every external call succeeds and returns fixed data. -/
def wOk : World :=
  { save_ok := true
    save_err := ""
    load_audio := Except.ok 7
    transcribe := fun _ _ _ => Except.ok ⟨[⟨0, 2, "hello", [], none⟩]⟩
    align := fun _ _ _ _ => Except.ok ⟨[⟨0, 2, "hello", [⟨"hello", 0, 1, none⟩], none⟩]⟩
    diarize := fun _ _ _ _ => Except.ok [⟨0, 2, "SPEAKER_00"⟩]
    assign_word_speakers := fun _ r => r }

/-- Same world but the alignment call raises. -/
def wAlignFail : World := { wOk with align := fun _ _ _ _ => Except.error "align boom" }

/-- Same world but the transcription call raises. -/
def wTransFail : World := { wOk with transcribe := fun _ _ _ => Except.error "transcribe boom" }

/-- Same world but the diarization call raises. -/
def wDiarFail : World := { wOk with diarize := fun _ _ _ _ => Except.error "diarize boom" }

/-- Same world but saving the upload to the temporary file raises. -/
def wSaveFail : World := { wOk with save_ok := false, save_err := "save boom" }

/-- All four model globals loaded. -/
def mAll : Models := ⟨some 1, some 2, some 3, some 4⟩

/-- Diarization pipeline not loaded (no Hugging Face token at startup). -/
def mNoDiar : Models := ⟨some 1, some 2, some 3, none⟩

/-- A valid request that does not ask for diarization. -/
def reqPlain : Request := ⟨true, "talk.wav", none, none, none, none⟩

/-- A valid request that asks for diarization. -/
def reqDiar : Request := ⟨true, "talk.wav", some "true", none, none, none⟩

/-- Startup environment with a Hugging Face token configured. -/
def envTok : Env := ⟨some "hf_abc", none⟩

/-- Startup environment with no token configured. -/
def envNoTok : Env := ⟨none, none⟩

/-- A startup world in which every load call succeeds. -/
def lwOk : LoadWorld :=
  { load_model := Except.ok 1
    load_align_model := Except.ok (2, 3)
    from_pretrained := fun _ => Except.ok 4 }

/-- A startup world in which loading the alignment model raises. -/
def lwAlignFail : LoadWorld :=
  { lwOk with load_align_model := Except.error "align load boom" }

/-- Diarization pipeline loaded but no alignment model. -/
def mDiarNoAlign : Models := ⟨some 1, none, none, some 4⟩

/-- Whether an `Except` value is a success. -/
def exceptOk {ε α : Type} : Except ε α → Bool
  | Except.ok _ => true
  | Except.error _ => false

/-! Helper lemmas shared by the claim theorems. -/

/-- The diarization step runs the reclaim step exactly when it returns
successfully. -/
theorem diarize_step_reclaim (m : Models) (w : World) (p : Params) (audio : Audio)
    (result : WResult) (aligned : Bool) :
    (diarize_step m w p audio result aligned).2.reclaim_called
      = exceptOk (diarize_step m w p audio result aligned).1 := by
  unfold diarize_step
  split
  · split <;> rfl
  · rfl

/-- The inner pipeline body runs the reclaim step exactly when it returns
successfully. -/
theorem run_pipeline_reclaim (m : Models) (w : World) (p : Params) :
    (run_pipeline m w p).2.reclaim_called = exceptOk (run_pipeline m w p).1 := by
  unfold run_pipeline
  split
  · rfl
  · split
    · rfl
    · split
      · rfl
      · split
        · split
          · rfl
          · apply diarize_step_reclaim
        · apply diarize_step_reclaim

/-- With no diarization pipeline loaded, the diarization step is a no-op on
the result and does not invoke the diarization stage. -/
theorem diarize_step_no_pipeline (m : Models) (w : World) (p : Params) (audio : Audio)
    (result : WResult) (aligned : Bool) (h : m.diarize_pipeline = none) :
    diarize_step m w p audio result aligned
      = (Except.ok result, ⟨false, false, true, aligned, false, false, true⟩) := by
  unfold diarize_step
  rw [h]
  simp

/-- With no diarization pipeline loaded, the pipeline never invokes the
diarization stage. -/
theorem run_pipeline_no_diarize (m : Models) (w : World) (p : Params)
    (h : m.diarize_pipeline = none) :
    (run_pipeline m w p).2.diarize_called = false := by
  unfold run_pipeline
  split
  · rfl
  · split
    · rfl
    · split
      · rfl
      · split
        · split
          · rfl
          · rw [diarize_step_no_pipeline m w p _ _ _ h]
        · rw [diarize_step_no_pipeline m w p _ _ _ h]

/-- With no diarization pipeline loaded, the pipeline result does not depend
on the diarization flag or the speaker bounds, only on the language. -/
theorem run_pipeline_no_pipeline_params (m : Models) (w : World) (p q : Params)
    (h : m.diarize_pipeline = none) (hl : p.language = q.language) :
    run_pipeline m w p = run_pipeline m w q := by
  unfold run_pipeline
  rw [hl]
  split
  · rfl
  · split
    · rfl
    · split
      · rfl
      · split
        · split
          · rfl
          · rw [diarize_step_no_pipeline m w p _ _ _ h,
                diarize_step_no_pipeline m w q _ _ _ h]
        · rw [diarize_step_no_pipeline m w p _ _ _ h,
              diarize_step_no_pipeline m w q _ _ _ h]

/-- A word with zero overlap with every interval has no best interval. -/
theorem best_interval_eq_none (w : Word) (ivs : List DiarizationInterval)
    (h0 : ∀ iv ∈ ivs, interval_overlap w iv = 0) : best_interval w ivs = none := by
  unfold best_interval
  induction ivs with
  | nil => rfl
  | cons a l ih =>
    have ha : interval_overlap w a = 0 := h0 a (by simp)
    have hp : pick w none a = none := by
      unfold pick
      rw [ha]
      simp
    rw [List.foldl_cons, hp]
    exact ih (fun iv hiv => h0 iv (by simp [hiv]))

/-- A word with zero overlap with every interval is returned unchanged by the
per-word assignment. -/
theorem assign_word_no_overlap (ivs : List DiarizationInterval) (w : Word)
    (h0 : ∀ iv ∈ ivs, interval_overlap w iv = 0) : assign_word ivs w = w := by
  unfold assign_word
  rw [best_interval_eq_none w ivs h0]

/-- Claim C3 (amended): the accelerator-memory reclaim step
(`gc.collect()` + `torch.cuda.empty_cache()`) is triggered exactly on runs
that return the success response: it runs before a successful result is
returned, and no run that ends in an error (validation failure, decode
failure, transcription failure, alignment failure, diarization failure)
triggers it before the error is returned. -/
theorem c3_reclaim_exactly_on_success (m : Models) (w : World) (req : Request) :
    (transcribe_audio m w req).2.reclaim_called
      = (transcribe_audio m w req).1.isSuccess := by
  unfold transcribe_audio
  split
  · rfl
  · split
    · rfl
    · split
      · rfl
      · split
        · rfl
        · next p hp =>
          split
          · rfl
          · have h := run_pipeline_reclaim m w p
            split
            · next x result tr heq =>
              rw [heq] at h
              simpa using h
            · next x e tr heq =>
              rw [heq] at h
              simpa using h

/-- Claim C3 counterexample: a run in which the transcription stage raises
ends in an error response without having triggered the reclaim step, so the
reclaim step is not triggered on every run. -/
theorem c3_counterexample :
    (transcribe_audio mAll wTransFail reqPlain).1
        = Response.failure "transcribe boom" 500 ∧
      (transcribe_audio mAll wTransFail reqPlain).2.reclaim_called = false := by
  constructor <;> rfl

/-- Claim C4 (amended): during startup initialization, a failure to load the
alignment model is fatal: `load_models` re-raises the exception instead of
completing with the service degraded to transcription-only. -/
theorem c4_align_load_failure_fatal (env : Env) (w : LoadWorld)
    (wm : WhisperHandle) (e : String)
    (h1 : w.load_model = Except.ok wm)
    (h2 : w.load_align_model = Except.error e) :
    load_models env w = Except.error e := by
  unfold load_models
  rw [h1, h2]
  rfl

/-- Claim C4 witness: a concrete startup in which the alignment model load
raises and initialization fails. -/
theorem c4_witness : load_models envNoTok lwAlignFail = Except.error "align load boom" :=
  c4_align_load_failure_fatal envNoTok lwAlignFail 1 "align load boom" rfl rfl

/-- Claim C4 counterexample: with a token configured and the alignment load
raising, initialization does not complete degraded — it fails outright. -/
theorem c4_counterexample :
    load_models envTok lwAlignFail = Except.error "align load boom" := by
  rfl

/-- Claim C6: the diarization model is loaded exactly when a truthy token is
configured in the environment; with no token, initialization succeeds and
only the diarization capability is disabled. -/
theorem c6_diarize_loaded_iff_token (env : Env) (w : LoadWorld)
    (wm : WhisperHandle) (amd : AlignHandle × AlignMeta) (dp : DiarizeHandle)
    (h1 : w.load_model = Except.ok wm)
    (h2 : w.load_align_model = Except.ok amd)
    (h3 : truthyStr (pyOr env.HF_TOKEN env.HUGGINGFACE_TOKEN) = true →
          w.from_pretrained ((pyOr env.HF_TOKEN env.HUGGINGFACE_TOKEN).getD "")
            = Except.ok dp) :
    load_models env w = Except.ok
      ⟨some wm, some amd.1, some amd.2,
       if truthyStr (pyOr env.HF_TOKEN env.HUGGINGFACE_TOKEN) then some dp else none⟩ := by
  unfold load_models
  rw [h1, h2]
  cases ht : truthyStr (pyOr env.HF_TOKEN env.HUGGINGFACE_TOKEN) with
  | false =>
    simp only [ht, Bool.false_eq_true, if_false]
    rfl
  | true =>
    have h4 := h3 ht
    simp only [ht, if_true, h4]
    rfl

/-- Claim C6 witness: a concrete startup with a token configured loads the
diarization pipeline. -/
theorem c6_witness :
    load_models envTok lwOk = Except.ok
      ⟨some 1, some 2, some 3,
       if truthyStr (pyOr envTok.HF_TOKEN envTok.HUGGINGFACE_TOKEN) then some 4 else none⟩ :=
  c6_diarize_loaded_iff_token envTok lwOk 1 (2, 3) 4 rfl rfl (fun _ => rfl)

/-- Claim C7: the health and model-info endpoints report each capability as
available exactly when its underlying model handle is non-null. -/
theorem c7_readiness_reflects_handles (m : Models) (cuda : Bool) :
    (health_check m cuda).whisperx_loaded = m.whisperx_model.isSome ∧
    (health_check m cuda).align_loaded = m.align_model.isSome ∧
    (health_check m cuda).diarize_loaded = m.diarize_pipeline.isSome ∧
    (models_info m).whisperx_model.isSome = m.whisperx_model.isSome ∧
    (models_info m).align_model_loaded = m.align_model.isSome ∧
    (models_info m).diarization_available = m.diarize_pipeline.isSome := by
  refine ⟨rfl, rfl, rfl, ?_, rfl, rfl⟩
  cases h : m.whisperx_model.isSome <;> simp [models_info, h]

/-- Claim C10 (amended): once the upload has been saved successfully, the
temporary file is deleted on the success path and on every error path; but
when saving the upload itself raises, the already-created temporary file is
not deleted before the handler returns. -/
theorem c10_temp_deleted_when_save_succeeds (m : Models) (w : World) (req : Request)
    (h : w.save_ok = true) :
    (transcribe_audio m w req).2.temp_deleted
      = (transcribe_audio m w req).2.temp_created := by
  unfold transcribe_audio
  rw [h]
  split
  · rfl
  · split
    · rfl
    · split
      · rfl
      · split
        · rfl
        · simp only [Bool.not_true, Bool.false_eq_true, if_false]
          split <;> rfl

/-- Claim C10 witness: a concrete successful request creates and deletes the
temporary file. -/
theorem c10_witness :
    (transcribe_audio mAll wOk reqPlain).2.temp_deleted
      = (transcribe_audio mAll wOk reqPlain).2.temp_created :=
  c10_temp_deleted_when_save_succeeds mAll wOk reqPlain rfl

/-- Claim C10 counterexample: when `file.save` raises, the temporary file has
been created but is not deleted before the handler returns the error. -/
theorem c10_counterexample :
    (transcribe_audio mAll wSaveFail reqPlain).1 = Response.failure "save boom" 500 ∧
      (transcribe_audio mAll wSaveFail reqPlain).2.temp_created = true ∧
      (transcribe_audio mAll wSaveFail reqPlain).2.temp_deleted = false := by
  refine ⟨rfl, rfl, rfl⟩

/-- Claim C1 (amended): when the transcription stage succeeds but the
alignment stage raises an error, the pipeline run does fail: the exception
propagates to the outer handler, which returns a 500 error response and no
fallback result; diarization, fusion and the reclaim step do not run, and
the temporary file is still deleted. -/
theorem c1_align_failure_fails_request
    (m : Models) (w : World) (req : Request) (p : Params)
    (audio : Audio) (wm : WhisperHandle) (am : AlignHandle) (r0 : WResult) (e : String)
    (h_audio : req.has_audio = true)
    (h_fn : (req.filename == "") = false)
    (h_ext : allowed_file req.filename = true)
    (h_params : get_params req = Except.ok p)
    (h_save : w.save_ok = true)
    (h_load : w.load_audio = Except.ok audio)
    (h_wm : m.whisperx_model = some wm)
    (h_tr : w.transcribe wm audio p.language = Except.ok r0)
    (h_am : m.align_model = some am)
    (h_al : w.align am m.align_metadata r0.segments audio = Except.error e) :
    transcribe_audio m w req =
      (Response.failure e 500, ⟨true, true, true, true, false, false, false⟩) := by
  unfold transcribe_audio run_pipeline
  simp [h_audio, h_fn, h_ext, h_params, h_save, h_load, h_wm, h_tr, h_am, h_al]

/-- Claim C1 witness: a concrete request in which transcription succeeds,
alignment raises, and the handler returns the 500 error. -/
theorem c1_witness :
    transcribe_audio mAll wAlignFail reqPlain =
      (Response.failure "align boom" 500, ⟨true, true, true, true, false, false, false⟩) :=
  c1_align_failure_fails_request mAll wAlignFail reqPlain
    ⟨false, "en", 1, 10⟩ 7 1 2 ⟨[⟨0, 2, "hello", [], none⟩]⟩ "align boom"
    rfl rfl rfl rfl rfl rfl rfl rfl rfl rfl

/-- Claim C1 counterexample: with the alignment stage raising, the run does
not return a TranscriptionResult — an error is surfaced to the caller. -/
theorem c1_counterexample :
    (transcribe_audio mAll wAlignFail reqPlain).1.isSuccess = false ∧
      (transcribe_audio mAll wAlignFail reqPlain).1 = Response.failure "align boom" 500 := by
  refine ⟨rfl, rfl⟩

/-- Claim C5: when the transcription stage fails, the request fails with the
transcribe-stage error as a 500 response, no fallback result is produced,
and neither alignment nor diarization nor fusion runs for that request. -/
theorem c5_transcribe_failure_fatal
    (m : Models) (w : World) (req : Request) (p : Params)
    (audio : Audio) (wm : WhisperHandle) (e : String)
    (h_audio : req.has_audio = true)
    (h_fn : (req.filename == "") = false)
    (h_ext : allowed_file req.filename = true)
    (h_params : get_params req = Except.ok p)
    (h_save : w.save_ok = true)
    (h_load : w.load_audio = Except.ok audio)
    (h_wm : m.whisperx_model = some wm)
    (h_tr : w.transcribe wm audio p.language = Except.error e) :
    transcribe_audio m w req =
      (Response.failure e 500, ⟨true, true, true, false, false, false, false⟩) := by
  unfold transcribe_audio run_pipeline
  simp [h_audio, h_fn, h_ext, h_params, h_save, h_load, h_wm, h_tr]

/-- Claim C5 witness: a concrete request in which transcription raises and
the handler returns its error with no later stage invoked. -/
theorem c5_witness :
    transcribe_audio mAll wTransFail reqPlain =
      (Response.failure "transcribe boom" 500, ⟨true, true, true, false, false, false, false⟩) :=
  c5_transcribe_failure_fatal mAll wTransFail reqPlain
    ⟨false, "en", 1, 10⟩ 7 1 "transcribe boom"
    rfl rfl rfl rfl rfl rfl rfl rfl

/-- Claim C2 (amended): when diarization is requested but the diarization
model is not loaded, the request still succeeds with
`diarization_enabled = false` and the diarization stage is skipped, but the
response does not distinguish this case from diarization-not-requested (the
handler output is identical for any value of the diarization form field);
and when the diarization stage raises, the request does not succeed — the
error propagates and the handler returns a 500 response. -/
theorem c2_diarization_unavailable_or_failing :
    (∀ (m : Models) (w : World) (req : Request) (p : Params) (r : WResult) (tr : Trace),
       req.has_audio = true → (req.filename == "") = false →
       allowed_file req.filename = true → get_params req = Except.ok p →
       w.save_ok = true → m.diarize_pipeline = none →
       run_pipeline m w p = (Except.ok r, tr) →
       transcribe_audio m w req =
           (Response.success r req.filename false,
            { tr with temp_created := true, temp_deleted := true }) ∧
         tr.diarize_called = false) ∧
    (∀ (m : Models) (w : World) (req : Request) (d d' : Option String),
       m.diarize_pipeline = none →
       transcribe_audio m w { req with form_diarization := d }
         = transcribe_audio m w { req with form_diarization := d' }) ∧
    (∀ (m : Models) (w : World) (req : Request) (p : Params)
       (audio : Audio) (wm : WhisperHandle) (r1 : WResult) (dp : DiarizeHandle) (e : String),
       req.has_audio = true → (req.filename == "") = false →
       allowed_file req.filename = true → get_params req = Except.ok p →
       w.save_ok = true → w.load_audio = Except.ok audio →
       m.whisperx_model = some wm → m.align_model = none →
       w.transcribe wm audio p.language = Except.ok r1 →
       p.enable_diarization = true → m.diarize_pipeline = some dp →
       w.diarize dp audio p.min_speakers p.max_speakers = Except.error e →
       transcribe_audio m w req =
         (Response.failure e 500, ⟨true, true, true, false, true, false, false⟩)) := by
  refine ⟨?_, ?_, ?_⟩
  · intro m w req p r tr h_audio h_fn h_ext h_params h_save h_diar h_run
    constructor
    · unfold transcribe_audio
      simp [h_audio, h_fn, h_ext, h_params, h_save, h_diar, h_run]
    · have h := run_pipeline_no_diarize m w p h_diar
      rw [h_run] at h
      simpa using h
  · intro m w req d d' h
    unfold transcribe_audio
    simp only [get_params]
    cases hmin : parse_int_form req.form_min_speakers 1 with
    | error e => simp [hmin]
    | ok mn =>
      cases hmax : parse_int_form req.form_max_speakers 10 with
      | error e => simp [hmin, hmax]
      | ok mx =>
        have hrp := run_pipeline_no_pipeline_params m w
          ⟨strToLower (d.getD "false") == "true", req.form_language.getD "en", mn, mx⟩
          ⟨strToLower (d'.getD "false") == "true", req.form_language.getD "en", mn, mx⟩
          h rfl
        simp [hmin, hmax, h, hrp]
  · intro m w req p audio wm r1 dp e h_audio h_fn h_ext h_params h_save h_load h_wm
      h_am h_tr h_en h_dp h_di
    unfold transcribe_audio run_pipeline diarize_step
    simp [h_audio, h_fn, h_ext, h_params, h_save, h_load, h_wm, h_am, h_tr, h_en,
      h_dp, h_di]

/-- Claim C2 witness: concrete runs for the three amended behaviours —
requested-but-unavailable succeeds with the flag false and no diarization
call; the output is identical whether or not the form requested diarization
when no pipeline is loaded; a raising diarization stage fails the request. -/
theorem c2_witness :
    (transcribe_audio mNoDiar wOk reqDiar =
         (Response.success ⟨[⟨0, 2, "hello", [⟨"hello", 0, 1, none⟩], none⟩]⟩
            "talk.wav" false,
          ⟨true, true, true, true, false, false, true⟩) ∧
       (⟨false, false, true, true, false, false, true⟩ : Trace).diarize_called = false) ∧
    (transcribe_audio mNoDiar wOk { reqPlain with form_diarization := some "true" }
       = transcribe_audio mNoDiar wOk { reqPlain with form_diarization := none }) ∧
    (transcribe_audio mDiarNoAlign wDiarFail reqDiar =
       (Response.failure "diarize boom" 500, ⟨true, true, true, false, true, false, false⟩)) :=
  ⟨c2_diarization_unavailable_or_failing.1 mNoDiar wOk reqDiar
     ⟨true, "en", 1, 10⟩ ⟨[⟨0, 2, "hello", [⟨"hello", 0, 1, none⟩], none⟩]⟩
     ⟨false, false, true, true, false, false, true⟩
     rfl rfl rfl rfl rfl rfl rfl,
   c2_diarization_unavailable_or_failing.2.1 mNoDiar wOk reqPlain (some "true") none rfl,
   c2_diarization_unavailable_or_failing.2.2 mDiarNoAlign wDiarFail reqDiar
     ⟨true, "en", 1, 10⟩ 7 1 ⟨[⟨0, 2, "hello", [], none⟩]⟩ 4 "diarize boom"
     rfl rfl rfl rfl rfl rfl rfl rfl rfl rfl rfl rfl⟩

/-- Claim C2 counterexample: a request with diarization enabled whose
diarization stage raises does not still succeed — the handler returns an
error response. -/
theorem c2_counterexample :
    (transcribe_audio mAll wDiarFail reqDiar).1 = Response.failure "diarize boom" 500 := by
  rfl

/-- Claim C8: in the fusion step, a word whose temporal overlap with every
diarization interval is zero keeps its speaker unset and is never assigned
any interval's label. -/
theorem c8_zero_overlap_speaker_unset
    (ws : List Word) (ivs : List DiarizationInterval) (i : Nat) (hi : i < ws.length)
    (h0 : ∀ iv ∈ ivs, interval_overlap (ws.get ⟨i, hi⟩) iv = 0)
    (hu : (ws.get ⟨i, hi⟩).speaker = none) :
    (assign_speakers ws ivs).get ⟨i, by simpa [assign_speakers] using hi⟩
        = ws.get ⟨i, hi⟩ ∧
      ((assign_speakers ws ivs).get ⟨i, by simpa [assign_speakers] using hi⟩).speaker
        = none := by
  have hmap : (assign_speakers ws ivs).get ⟨i, by simpa [assign_speakers] using hi⟩
      = assign_word ivs (ws.get ⟨i, hi⟩) := by
    simp [assign_speakers]
  rw [hmap, assign_word_no_overlap ivs _ h0]
  exact ⟨rfl, hu⟩

/-- Claim C8 witness: a concrete word overlapping no interval keeps its
speaker unset. -/
theorem c8_witness :
    (assign_speakers [⟨"hi", 0, 1, none⟩] [⟨5, 6, "A"⟩]).get
        ⟨0, by simp [assign_speakers]⟩ = ⟨"hi", 0, 1, none⟩ ∧
      ((assign_speakers [⟨"hi", 0, 1, none⟩] [⟨5, 6, "A"⟩]).get
        ⟨0, by simp [assign_speakers]⟩).speaker = none :=
  c8_zero_overlap_speaker_unset [⟨"hi", 0, 1, none⟩] [⟨5, 6, "A"⟩] 0 (by decide)
    (by
      intro iv hiv
      simp only [List.mem_singleton] at hiv
      subst hiv
      norm_num [interval_overlap])
    rfl

end App
